import Mathlib

/-!
Verification development for the cppli command-line parsing library.

The definitions below are shallow embeddings of the C++ sources:
  * `ErrorCode`, `Error` and the factory helpers — src/include/cppli_error.hpp,
    src/src/cppli_error.cpp (the `source_location` field is dropped: it does not
    influence any parsing behaviour).
  * `ValueConverter.*` — src/src/cppli_types.cpp.  `fromCharsInt` embeds the
    behaviour of `std::from_chars` for a 32-bit `int` in base 10: an optional
    leading minus sign, then the longest run of decimal digits; no digit at all
    reports `invalid_argument`; a digit run whose value does not fit the 32-bit
    range reports `result_out_of_range`; otherwise the value of the digit run is
    produced and any trailing characters are ignored.
  * `TypedFlag`, `TypedPositional` — src/include/cppli_types.hpp.  Value types
    are represented by the closed universe `CVal` (string / int / bool), which
    covers every built-in converter the claims mention; `double` is not needed
    by any claim.  In-place mutation is modelled by returning the updated
    descriptor next to the `Result`.
  * `Subcommand` and `Subcommand.parse_args` — src/src/cppli_subcommand.cpp.
    The C++ loop walks an index over the argument vector; the embedding walks
    the remaining suffix of the token list (index i corresponds to dropping i
    tokens) and returns the unconsumed suffix where the C++ returns an index.
-/

namespace Cppli

/-- Error categories, from `enum class ErrorCode` in cppli_error.hpp. -/
inductive ErrorCode where
  | None
  | UnknownFlag
  | MissingRequiredFlag
  | MissingRequiredPositional
  | InvalidFlagValue
  | TooManyPositionals
  | MissingFlagValue
  | ValidationFailed
  | ParserNotInitialized
deriving DecidableEq, Repr

/-- Structured error: code and human-readable message (cppli_error.hpp;
the `source_location` member is display-only and omitted). -/
structure Error where
  code : ErrorCode
  message : String
deriving DecidableEq, Repr

namespace Error

/-- Factory `Error::unknown_flag` (cppli_error.cpp). -/
def unknown_flag (flag_name : String) : Error :=
  ⟨ErrorCode.UnknownFlag, "Unknown flag: " ++ flag_name⟩

/-- Factory `Error::missing_required_flag` (cppli_error.cpp). -/
def missing_required_flag (flag_name : String) : Error :=
  ⟨ErrorCode.MissingRequiredFlag, "Required flag missing: --" ++ flag_name⟩

/-- Factory `Error::missing_required_positional` (cppli_error.cpp). -/
def missing_required_positional (pos_name : String) : Error :=
  ⟨ErrorCode.MissingRequiredPositional, "Required positional missing: " ++ pos_name⟩

/-- Factory `Error::invalid_flag_value` (cppli_error.cpp). -/
def invalid_flag_value (flag_name value : String) : Error :=
  ⟨ErrorCode.InvalidFlagValue, "Invalid value for --" ++ flag_name ++ ": " ++ value⟩

/-- Factory `Error::too_many_positionals` (cppli_error.cpp). -/
def too_many_positionals : Error :=
  ⟨ErrorCode.TooManyPositionals, "Too many positional arguments"⟩

/-- Factory `Error::missing_flag_value` (cppli_error.cpp). -/
def missing_flag_value (flag_name : String) : Error :=
  ⟨ErrorCode.MissingFlagValue, "Missing value for flag: --" ++ flag_name⟩

/-- Factory `Error::validation_failed` (cppli_error.cpp). -/
def validation_failed (name reason : String) : Error :=
  ⟨ErrorCode.ValidationFailed, "Validation failed for " ++ name ++ ": " ++ reason⟩

end Error

/-- Decidable equality of results, for evaluating concrete parses. -/
instance {α : Type} [DecidableEq α] : DecidableEq (Except Error α) := fun a b =>
  match a, b with
  | .ok x, .ok y =>
    if h : x = y then .isTrue (by rw [h]) else .isFalse (by intro hc; cases hc; exact h rfl)
  | .ok _, .error _ => .isFalse (by intro hc; cases hc)
  | .error _, .ok _ => .isFalse (by intro hc; cases hc)
  | .error e, .error e2 =>
    if h : e = e2 then .isTrue (by rw [h]) else .isFalse (by intro hc; cases hc; exact h rfl)

/-- Outcome observation: `Except.isOk`. -/
def isOkE {α : Type} (r : Except Error α) : Bool :=
  match r with
  | .ok _ => true
  | .error _ => false

/-- Outcome observation: the error code of a failed result. -/
def errCodeOf {α : Type} (r : Except Error α) : Option ErrorCode :=
  match r with
  | .ok _ => none
  | .error e => some e.code

/-- Outcome observation: the payload of a successful result. -/
def okValOf {α : Type} (r : Except Error α) : Option α :=
  match r with
  | .ok a => some a
  | .error _ => none

/-! ### String primitives

The C++ uses `std::string::starts_with`, `substr` and `find`; they are
modelled over the character list of the string so that concrete parses
evaluate inside the kernel. -/

/-- `s.starts_with(c)` for a single character: the first character is `c`. -/
def strFirstIs (s : String) (c : Char) : Bool :=
  match s.data with
  | c2 :: _ => c2 == c
  | [] => false

/-- `s.starts_with("--")`. -/
def strFirstTwoDash (s : String) : Bool :=
  match s.data with
  | '-' :: '-' :: _ => true
  | _ => false

/-- `s.substr(n)`: drop the first `n` characters. -/
def strDrop (s : String) (n : Nat) : String :=
  ⟨s.data.drop n⟩

/-! ### Value conversion layer (cppli_types.cpp) -/

/-- Error condition reported by `std::from_chars`. -/
inductive FCErrc where
  | ok
  | invalid_argument
  | result_out_of_range
deriving DecidableEq, Repr

/-- `INT_MIN` for the 32-bit `int` used by `ValueConverter<int>`. -/
def intMin : Int := -2147483648

/-- `INT_MAX` for the 32-bit `int` used by `ValueConverter<int>`. -/
def intMax : Int := 2147483647

/-- Numeric value of a run of decimal digit characters. -/
def decDigitsVal (ds : List Char) : Nat :=
  ds.foldl (fun a c => a * 10 + (c.toNat - 48)) 0

/-- Behaviour of `std::from_chars(first, last, value)` for `int`, base 10:
consume an optional minus sign and then the longest run of decimal digits.
No digits: `invalid_argument`.  Digits whose signed value lies outside the
32-bit range: `result_out_of_range`.  Otherwise the value; characters after
the digit run are left unread. -/
def fromCharsInt (s : String) : FCErrc × Int :=
  let neg := strFirstIs s '-'
  let body := if neg then s.data.drop 1 else s.data
  let ds := body.takeWhile (fun c => c.isDigit)
  if ds.isEmpty then
    (FCErrc.invalid_argument, 0)
  else
    let v : Int := if neg then -(decDigitsVal ds : Int) else (decDigitsVal ds : Int)
    if v < intMin ∨ intMax < v then (FCErrc.result_out_of_range, 0)
    else (FCErrc.ok, v)

namespace ValueConverter

/-- `ValueConverter<std::string>::from_string` (cppli_types.hpp): identity. -/
def string_from_string (s : String) : Except Error String :=
  .ok s

/-- `ValueConverter<int>::from_string` (cppli_types.cpp): run `std::from_chars`
over the whole token and map the error condition, checking only `ec`. -/
def int_from_string (s : String) : Except Error Int :=
  match fromCharsInt s with
  | (FCErrc.ok, v) => .ok v
  | (FCErrc.invalid_argument, _) =>
      .error ⟨ErrorCode.InvalidFlagValue, "Invalid integer format"⟩
  | (FCErrc.result_out_of_range, _) =>
      .error ⟨ErrorCode.InvalidFlagValue, "Integer out of range"⟩

/-- `ValueConverter<bool>::from_string` (cppli_types.cpp). -/
def bool_from_string (s : String) : Except Error Bool :=
  if s == "true" || s == "1" || s == "yes" || s == "on" then .ok true
  else if s == "false" || s == "0" || s == "no" || s == "off" then .ok false
  else .error ⟨ErrorCode.InvalidFlagValue,
    "Invalid boolean value (expected: true/false, 1/0, yes/no, on/off)"⟩

end ValueConverter

/-- The 8 boolean literals recognised by the dispatcher lookahead
(cppli_subcommand.cpp lines 204-205) and the boolean converter. -/
def boolLits : List String := ["true", "false", "1", "0", "yes", "no", "on", "off"]

/-! ### Typed descriptors (cppli_types.hpp) -/

/-- Closed universe of flag/positional value types used by the claims
(the built-in converters minus `double`, which no claim exercises). -/
inductive CTy where
  | str
  | int
  | bool
deriving DecidableEq, Repr

/-- A value of one of the types in `CTy`. -/
inductive CVal where
  | str (s : String)
  | int (n : Int)
  | bool (b : Bool)
deriving DecidableEq, Repr

/-- Dispatch a raw token to the `ValueConverter` of the given type. -/
def convert (ty : CTy) (s : String) : Except Error CVal :=
  match ty with
  | .str => (ValueConverter.string_from_string s).map CVal.str
  | .int => (ValueConverter.int_from_string s).map CVal.int
  | .bool => (ValueConverter.bool_from_string s).map CVal.bool

/-- `TypedFlag<T>` (cppli_types.hpp), with `T` carried as the tag `ty`. -/
structure TypedFlag where
  long_name : String
  short_name : String := ""
  required : Bool := false
  ty : CTy
  value : Option CVal := none
  default_value : Option CVal := none
  choices : List CVal := []
  validator : Option (CVal → Except Error Unit) := none

namespace TypedFlag

/-- `TypedFlag::has_value`. -/
def has_value (f : TypedFlag) : Bool := f.value.isSome

/-- `TypedFlag::set_default_value`: stores the default and initialises the
current value to it (cppli_types.hpp lines 164-168). -/
def set_default_value (f : TypedFlag) (v : CVal) : TypedFlag :=
  { f with default_value := some v, value := some v }

/-- `TypedFlag::validate` (cppli_types.hpp lines 215-238): vacuously valid with
no value; otherwise the choice-set check, then the custom validator. -/
def validate (f : TypedFlag) : Except Error Unit :=
  match f.value with
  | none => .ok ()
  | some v =>
    if !f.choices.isEmpty && !f.choices.contains v then
      .error (Error.validation_failed f.long_name "value not in allowed choices")
    else
      match f.validator with
      | some g => g v
      | none => .ok ()

/-- `TypedFlag::set_value_from_string` (cppli_types.hpp lines 196-204): convert,
propagate a conversion error without storing, otherwise store then validate.
The updated descriptor is returned next to the `Result` (the C++ mutates in
place). -/
def set_value_from_string (f : TypedFlag) (s : String) : TypedFlag × Except Error Unit :=
  match convert f.ty s with
  | .error e => (f, .error e)
  | .ok v =>
    let f1 := { f with value := some v }
    (f1, f1.validate)

end TypedFlag

/-- `TypedPositional<T>` (cppli_types.hpp). -/
structure TypedPositional where
  name : String
  required : Bool := true
  ty : CTy
  value : Option CVal := none
  validator : Option (CVal → Except Error Unit) := none

namespace TypedPositional

/-- `TypedPositional::has_value`. -/
def has_value (p : TypedPositional) : Bool := p.value.isSome

/-- `TypedPositional::set_value_from_string` (cppli_types.hpp lines 300-313):
convert, propagate a conversion error without storing, otherwise store and run
the custom validator if present. -/
def set_value_from_string (p : TypedPositional) (s : String) :
    TypedPositional × Except Error Unit :=
  match convert p.ty s with
  | .error e => (p, .error e)
  | .ok v =>
    let p1 := { p with value := some v }
    match p1.validator with
    | some g => (p1, g v)
    | none => (p1, .ok ())

end TypedPositional

/-! ### Subcommand (cppli_subcommand.hpp / cppli_subcommand.cpp)

The C++ `Subcommand` owns type-erased `FlagStorage` / `PositionalStorage`
capsules whose closures forward to the typed descriptors; the embedding stores
the descriptors directly (the capsule adds no behaviour of its own).  `flags_`
is a `std::map` keyed by long name: it is modelled as a list of descriptors
ordered by `long_name`, looked up by long name.  Parse-and-help rendering state
that no claim observes (descriptions, examples, parent back-references, the
callback) is omitted. -/

/-- Non-recursive part of the `Subcommand` state. -/
structure SubCore where
  name : String := ""
  flags : List TypedFlag := []
  positionals : List TypedPositional := []
  selected_subcommand : Option String := none
  parsed : Bool := false
  help_requested : Bool := false
  allow_fallthrough : Bool := false

/-- `Subcommand`: its core state plus the owned child subcommands
(`std::map<std::string, std::unique_ptr<Subcommand>>`). -/
inductive Subcommand where
  | mk (core : SubCore) (subcommands : List (String × Subcommand))

/-- Core-state projection. -/
def Subcommand.core : Subcommand → SubCore
  | .mk c _ => c

/-- Child-map projection. -/
def Subcommand.subcommands : Subcommand → List (String × Subcommand)
  | .mk _ s => s

/-- Replace the core state, keeping the children. -/
def Subcommand.withCore : Subcommand → SubCore → Subcommand
  | .mk _ s, c => .mk c s

/-- Lookup in the child map (`subcommands_.find`). -/
def lookupSub (subs : List (String × Subcommand)) (n : String) : Option Subcommand :=
  (subs.find? (fun p => p.1 == n)).map (fun p => p.2)

/-- Write back a child into the map (in C++ the child is mutated in place). -/
def updateSub (subs : List (String × Subcommand)) (n : String) (c : Subcommand) :
    List (String × Subcommand) :=
  subs.map (fun p => if p.1 == n then (p.1, c) else p)

/-- Lookup a flag by long name (`flags_.find`). -/
def lookupFlag (flags : List TypedFlag) (n : String) : Option TypedFlag :=
  flags.find? (fun f => f.long_name == n)

/-- Write back a flag descriptor after mutation (first entry with the name;
long names are unique map keys in the C++). -/
def updateFlag : List TypedFlag → String → TypedFlag → List TypedFlag
  | [], _, _ => []
  | f :: fs, n, f1 => if f.long_name == n then f1 :: fs else f :: updateFlag fs n f1

/-- The short-name index rebuilt at the top of `parse_args` (lines 101-107):
for each flag with a non-empty short name, map it to the long name; on
duplicate short names the entry written last (later in flag order) wins.
`shortToLong flags s` is the lookup in that index. -/
def shortToLong (flags : List TypedFlag) (s : String) : Option String :=
  ((flags.reverse).find? (fun f => f.short_name == s && f.short_name != ""))
    |>.map (fun f => f.long_name)

/-- Split a `--name[=value]` token at the first `=` (lines 160-168):
the name is everything between the leading dashes and the first `=`;
if an `=` is present the value is everything after it. -/
def splitLongForm (arg : String) : String × Option String :=
  let s := arg.data.drop 2
  if s.contains '=' then
    (⟨s.takeWhile (fun c => c != '=')⟩, some ⟨(s.dropWhile (fun c => c != '=')).drop 1⟩)
  else
    (⟨s⟩, none)

/-- Record `help_requested_` when the resolved long name is literally `help`
(lines 183-185). -/
def markHelp (sc : Subcommand) (flagName : String) : Subcommand :=
  if flagName == "help" then sc.withCore { sc.core with help_requested := true } else sc

/-- `Subcommand::parse_args` (cppli_subcommand.cpp lines 100-230), walking the
remaining token suffix in place of the C++ index (the returned suffix is the
tokens from the C++ result index on).  The mutated subcommand is returned next
to the `Result`, as the C++ object keeps its mutations when an error is
returned.  `posIx` is `pos_index`, `add` is `after_double_dash`. -/
def Subcommand.parse_args_from : Nat → Subcommand → List String → Nat → Bool →
    Subcommand × Except Error (List String)
  | 0, sc, _, _, _ => (sc, .error ⟨ErrorCode.ParserNotInitialized, "fuel exhausted"⟩)
  | fuel + 1, sc, rest, posIx, add =>
    match rest with
    | [] => (sc, .ok [])
    | arg :: t =>
    if arg == "--" then
      Subcommand.parse_args_from fuel sc t posIx true
    else
      match (if !add && arg != "" && !(strFirstIs arg '-') then
               lookupSub sc.subcommands arg
             else none) with
      | some child =>
        -- lines 122-140: subcommand branch
        let sc1 := sc.withCore { sc.core with selected_subcommand := some arg }
        match Subcommand.parse_args_from fuel child t 0 false with
        | (child1, .error e) =>
          (Subcommand.mk sc1.core (updateSub sc1.subcommands arg child1), .error e)
        | (child1, .ok rem) =>
          let child2 := child1.withCore { child1.core with parsed := true }
          let sc2 := Subcommand.mk
            { sc1.core with
                help_requested := sc1.core.help_requested || child2.core.help_requested }
            (updateSub sc1.subcommands arg child2)
          (sc2, .ok rem)
      | none =>
        if add || arg == "" || !(strFirstIs arg '-') then
          -- lines 142-154: positional branch
          match sc.core.positionals[posIx]? with
          | none => (sc, .ok (arg :: t))
          | some p =>
            let (p1, res) := p.set_value_from_string arg
            let sc1 := sc.withCore
              { sc.core with positionals := sc.core.positionals.set posIx p1 }
            match res with
            | .error e => (sc1, .error e)
            | .ok _ => Subcommand.parse_args_from fuel sc1 t (posIx + 1) add
        else
          -- lines 156-226: flag branch
          let resolved : Option (String × Option String) :=
            if strFirstTwoDash arg then
              let (n, v) := splitLongForm arg
              some (n, v)
            else
              match shortToLong sc.core.flags (strDrop arg 1) with
              | some ln => some (ln, none)
              | none => none
          match resolved with
          | none =>
            -- lines 174-180: unknown short name
            if sc.core.allow_fallthrough then (sc, .ok (arg :: t))
            else (sc, .error (Error.unknown_flag arg))
          | some (flagName, inlineVal) =>
            let sc1 := markHelp sc flagName
            match lookupFlag sc1.core.flags flagName with
            | none =>
              -- lines 187-193: unknown long name
              if sc1.core.allow_fallthrough then (sc1, .ok (arg :: t))
              else (sc1, .error (Error.unknown_flag arg))
            | some f =>
              let isBool := f.ty == CTy.bool
              -- lines 197-219: value consumption
              match inlineVal with
              | some v =>
                let (f1, res) := f.set_value_from_string v
                let sc2 := sc1.withCore
                  { sc1.core with flags := updateFlag sc1.core.flags flagName f1 }
                match res with
                | .error e => (sc2, .error e)
                | .ok _ => Subcommand.parse_args_from fuel sc2 t posIx add
              | none =>
                -- lines 197-210: may the next token be consumed as the value?
                let nextOk : Bool :=
                  match t with
                  | next :: _ => !(strFirstIs next '-') && (!isBool || boolLits.contains next)
                  | [] => false
                if nextOk then
                  match t with
                  | next :: t2 =>
                    let (f1, res) := f.set_value_from_string next
                    let sc2 := sc1.withCore
                      { sc1.core with flags := updateFlag sc1.core.flags flagName f1 }
                    match res with
                    | .error e => (sc2, .error e)
                    | .ok _ => Subcommand.parse_args_from fuel sc2 t2 posIx add
                  | [] => (sc1, .error (Error.missing_flag_value flagName))
                    -- unreachable: nextOk is false on []
                else if isBool then
                  -- lines 212-215: boolean flag defaults to the literal "true"
                  let (f1, res) := f.set_value_from_string "true"
                  let sc2 := sc1.withCore
                    { sc1.core with flags := updateFlag sc1.core.flags flagName f1 }
                  match res with
                  | .error e => (sc2, .error e)
                  | .ok _ => Subcommand.parse_args_from fuel sc2 t posIx add
                else
                  (sc1, .error (Error.missing_flag_value flagName))

/-- `Subcommand::parse_args` entry: one unit of fuel is spent per consumed
token, so `rest.length + 1` can never run out. -/
def Subcommand.parse_args (sc : Subcommand) (rest : List String) (posIx : Nat)
    (add : Bool) : Subcommand × Except Error (List String) :=
  Subcommand.parse_args_from (rest.length + 1) sc rest posIx add

/-- `Subcommand::validate_requirements` (lines 232-246): the first required
flag without a value, then the first required positional without a value. -/
def Subcommand.validate_requirements (sc : Subcommand) : Except Error Unit :=
  match sc.core.flags.find? (fun f => f.required && !f.has_value) with
  | some f => .error (Error.missing_required_flag f.long_name)
  | none =>
    match sc.core.positionals.find? (fun p => p.required && !p.has_value) with
    | some p => .error (Error.missing_required_positional p.name)
    | none => .ok ()

/-- `Subcommand::has` (lines 86-89). -/
def Subcommand.has (sc : Subcommand) (flag_name : String) : Bool :=
  match lookupFlag sc.core.flags flag_name with
  | some f => f.has_value
  | none => false

/-- `Subcommand::get<T>`: the stored value of a flag. -/
def Subcommand.getFlag (sc : Subcommand) (flag_name : String) : Option CVal :=
  (lookupFlag sc.core.flags flag_name).bind (fun f => f.value)

/-- `Subcommand::get_positional<T>(size_t)`: the stored value at an index. -/
def Subcommand.get_positional (sc : Subcommand) (i : Nat) : Option CVal :=
  (sc.core.positionals[i]?).bind (fun p => p.value)

/-! ### The typed top-level dispatcher

Modelled from the spec: the typed top-level `Parser` (the dispatcher of
spec section 4.4 whose entry points the tests call with `add_flag<T>` /
`parse(args)` returning a `Result`) is not under `src/`; only its callers
(`src/tests/test_parser.cpp`) and the recursive twin `Subcommand` are.  The
model follows the spec's words: the same per-token classification as the
subcommand engine, except that a positional-shaped token with no slot
remaining is the error `TooManyPositionals`; on a subcommand match the child
parses from the next index, a child `help_requested` ends the whole parse
successfully, otherwise the child's requirement validation runs and the
parent resumes classification at the child's returned index (this is what
makes a fallthrough child's unrecognised token "resolve against the parent's
schema"); after the loop, `help`/`version` recognition skips requirement
validation.  The minimum-subcommand-count option is not modelled (no claim
mentions it).  `parse_loop` is indexed by fuel, structurally; every loop
level consumes at least one token, so `parse` supplies `args.length + 1`,
which can never run out. -/
structure TParser where
  flags : List TypedFlag := []
  positionals : List TypedPositional := []
  subcommands : List (String × Subcommand) := []
  selected_subcommand : Option String := none
  parsed : Bool := false
  help_requested : Bool := false
  version_requested : Bool := false

/-- Requirement validation of the top-level dispatcher, as in
`Subcommand::validate_requirements`. -/
def TParser.validate_requirements (p : TParser) : Except Error Unit :=
  match p.flags.find? (fun f => f.required && !f.has_value) with
  | some f => .error (Error.missing_required_flag f.long_name)
  | none =>
    match p.positionals.find? (fun q => q.required && !q.has_value) with
    | some q => .error (Error.missing_required_positional q.name)
    | none => .ok ()

/-- Modelled from the spec: the parse loop of the typed top-level dispatcher
(spec section 4.4); see the comment on `TParser`. -/
def TParser.parse_loop : Nat → TParser → List String → Nat → Bool →
    TParser × Except Error Unit
  | 0, p, _, _, _ => (p, .error ⟨ErrorCode.ParserNotInitialized, "fuel exhausted"⟩)
  | fuel + 1, p, rest, posIx, add =>
    match rest with
    | [] =>
      if p.help_requested || p.version_requested then (p, .ok ())
      else
        match p.validate_requirements with
        | .error e => (p, .error e)
        | .ok _ => ({ p with parsed := true }, .ok ())
    | arg :: t =>
      if arg == "--" then
        TParser.parse_loop fuel p t posIx true
      else
        match (if !add && arg != "" && !(strFirstIs arg '-') then
                 lookupSub p.subcommands arg
               else none) with
        | some child =>
          let p1 := { p with selected_subcommand := some arg }
          match Subcommand.parse_args_from fuel child t 0 false with
          | (child1, .error e) =>
            ({ p1 with subcommands := updateSub p1.subcommands arg child1 }, .error e)
          | (child1, .ok rem) =>
            let child2 := child1.withCore { child1.core with parsed := true }
            let p2 := { p1 with
                          subcommands := updateSub p1.subcommands arg child2,
                          help_requested :=
                            p1.help_requested || child2.core.help_requested }
            if child2.core.help_requested then (p2, .ok ())
            else
              match child2.validate_requirements with
              | .error e => (p2, .error e)
              | .ok _ => TParser.parse_loop fuel p2 rem posIx add
        | none =>
          if add || arg == "" || !(strFirstIs arg '-') then
            match p.positionals[posIx]? with
            | none => (p, .error Error.too_many_positionals)
            | some q =>
              let (q1, res) := q.set_value_from_string arg
              let p1 := { p with positionals := p.positionals.set posIx q1 }
              match res with
              | .error e => (p1, .error e)
              | .ok _ => TParser.parse_loop fuel p1 t (posIx + 1) add
          else
            let resolved : Option (String × Option String) :=
              if strFirstTwoDash arg then
                let (n, v) := splitLongForm arg
                some (n, v)
              else
                match shortToLong p.flags (strDrop arg 1) with
                | some ln => some (ln, none)
                | none => none
            match resolved with
            | none => (p, .error (Error.unknown_flag arg))
            | some (flagName, inlineVal) =>
              let p1 :=
                if flagName == "help" then { p with help_requested := true } else p
              let p2 :=
                if flagName == "version" then { p1 with version_requested := true }
                else p1
              match lookupFlag p2.flags flagName with
              | none => (p2, .error (Error.unknown_flag arg))
              | some f =>
                let isBool := f.ty == CTy.bool
                match inlineVal with
                | some v =>
                  let (f1, res) := f.set_value_from_string v
                  let p3 := { p2 with flags := updateFlag p2.flags flagName f1 }
                  match res with
                  | .error e => (p3, .error e)
                  | .ok _ => TParser.parse_loop fuel p3 t posIx add
                | none =>
                  let nextOk : Bool :=
                    match t with
                    | next :: _ =>
                      !(strFirstIs next '-') && (!isBool || boolLits.contains next)
                    | [] => false
                  if nextOk then
                    match t with
                    | next :: t2 =>
                      let (f1, res) := f.set_value_from_string next
                      let p3 := { p2 with flags := updateFlag p2.flags flagName f1 }
                      match res with
                      | .error e => (p3, .error e)
                      | .ok _ => TParser.parse_loop fuel p3 t2 posIx add
                    | [] => (p2, .error (Error.missing_flag_value flagName))
                  else if isBool then
                    let (f1, res) := f.set_value_from_string "true"
                    let p3 := { p2 with flags := updateFlag p2.flags flagName f1 }
                    match res with
                    | .error e => (p3, .error e)
                    | .ok _ => TParser.parse_loop fuel p3 t posIx add
                  else
                    (p2, .error (Error.missing_flag_value flagName))

/-- Modelled from the spec: the typed dispatcher's parse entry point over an
already-split token sequence. -/
def TParser.parse (p : TParser) (args : List String) : TParser × Except Error Unit :=
  TParser.parse_loop (args.length + 1) p args 0 false

/-- `has` on the typed dispatcher. -/
def TParser.has (p : TParser) (flag_name : String) : Bool :=
  match lookupFlag p.flags flag_name with
  | some f => f.has_value
  | none => false

/-- Typed flag value accessor on the dispatcher. -/
def TParser.getFlag (p : TParser) (flag_name : String) : Option CVal :=
  (lookupFlag p.flags flag_name).bind (fun f => f.value)

/-! ### The string-based `cli::Parser` (cppli.hpp / cppli.cpp)

All flag and positional values are plain strings here.  A flag `action` is an
arbitrary `std::function<void()>`; the library-installed help/version actions
print and call `std::exit(0)`, so an action is modelled as the list of
observable side effects it performs, and `parse` returns the effects it ran
next to the `ParseResult`.  `flags_` / `short_to_long_` are `std::map`s,
modelled as association lists keyed by the (unique) names. -/

/-- An observable side effect performed by a flag action. -/
inductive Effect where
  | printHelp
  | printVersion
  | exitProc (code : Nat)
deriving DecidableEq, Repr

/-- `cli::ParseResult` (cppli.hpp): success flag and error message
(the unused `warnings` vector is omitted). -/
structure ParseResult where
  success : Bool
  error : String
deriving DecidableEq, Repr

/-- `ParseResult::ok()`. -/
def ParseResult.okPR : ParseResult := ⟨true, ""⟩

/-- `ParseResult::err(msg)`. -/
def ParseResult.errPR (msg : String) : ParseResult := ⟨false, msg⟩

/-- `cli::Flag` (cppli.hpp lines 160-189); display-only fields omitted. -/
structure SFlag where
  short_name : String := ""
  long_name : String := ""
  required : Bool := false
  has_value : Bool := false
  value : String := ""
  default_value : String := ""
  choices : List String := []
  validator : Option (String → Bool) := none
  action : Option (List Effect) := none

/-- `Flag::validate` (cppli.hpp lines 178-188): a non-empty choice set is
checked alone; otherwise the custom validator; otherwise valid. -/
def SFlag.validate (f : SFlag) : Bool :=
  if !f.choices.isEmpty then f.choices.contains f.value
  else
    match f.validator with
    | some g => g f.value
    | none => true

/-- `cli::Positional` (cppli.hpp lines 197-215). -/
structure SPositional where
  name : String := ""
  required : Bool := true
  value : String := ""
  validator : Option (String → Bool) := none

/-- Association-list lookup for the `std::map` members. -/
def alookup {α : Type} (m : List (String × α)) (k : String) : Option α :=
  (m.find? (fun p => p.1 == k)).map (fun p => p.2)

/-- Association-list write for the `std::map` members: replace the entry with
the key, or append a new one. -/
def aupdate {α : Type} : List (String × α) → String → α → List (String × α)
  | [], k, v => [(k, v)]
  | (k2, v2) :: r, k, v =>
    if k2 == k then (k, v) :: r else (k2, v2) :: aupdate r k v

/-- `cli::Parser` (cppli.hpp lines 238-394); help-rendering state omitted. -/
structure SParser where
  app_name : String := ""
  flags : List (String × SFlag) := []
  short_to_long : List (String × String) := []
  positionals : List SPositional := []
  parsed : Bool := false

namespace SParser

/-- `Parser::add_flag` (cppli.cpp lines 374-384): insert a fresh flag only if
the long name is not yet present. -/
def add_flag (p : SParser) (long_name : String) : SParser :=
  match alookup p.flags long_name with
  | some _ => p
  | none => { p with flags := aupdate p.flags long_name { long_name := long_name } }

/-- Apply a `FlagBuilder` mutation to the flag entry of a long name
(`parser_->flags_[long_name_]`, which default-constructs a missing entry). -/
def modFlag (p : SParser) (long_name : String) (g : SFlag → SFlag) : SParser :=
  let f := (alookup p.flags long_name).getD {}
  { p with flags := aupdate p.flags long_name (g f) }

/-- `FlagBuilder::short_name` (cppli.cpp lines 334-339). -/
def builder_short_name (p : SParser) (long_name short : String) : SParser :=
  let p1 := p.modFlag long_name (fun f => { f with short_name := short })
  { p1 with short_to_long := aupdate p1.short_to_long short long_name }

/-- `FlagBuilder::required` (cppli.cpp lines 346-349). -/
def builder_required (p : SParser) (long_name : String) (req : Bool) : SParser :=
  p.modFlag long_name (fun f => { f with required := req })

/-- `FlagBuilder::default_value` (cppli.cpp lines 351-357): also seeds the
current value and marks the flag as having a value. -/
def builder_default_value (p : SParser) (long_name val : String) : SParser :=
  p.modFlag long_name
    (fun f => { f with default_value := val, value := val, has_value := true })

/-- `FlagBuilder::choices` (cppli.cpp lines 359-362). -/
def builder_choices (p : SParser) (long_name : String) (opts : List String) : SParser :=
  p.modFlag long_name (fun f => { f with choices := opts })

/-- `FlagBuilder::validator` (cppli.cpp lines 364-367). -/
def builder_validator (p : SParser) (long_name : String) (g : String → Bool) : SParser :=
  p.modFlag long_name (fun f => { f with validator := some g })

/-- `FlagBuilder::action` (cppli.cpp lines 369-372). -/
def builder_action (p : SParser) (long_name : String) (effs : List Effect) : SParser :=
  p.modFlag long_name (fun f => { f with action := some effs })

/-- `Parser::add_help_flag` (cppli.cpp lines 71-83): installs a `help`/`h`
flag whose action prints the help text and calls `std::exit(0)`. -/
def add_help_flag (p : SParser) : SParser :=
  let flag : SFlag := { short_name := "h", long_name := "help",
                        action := some [Effect.printHelp, Effect.exitProc 0] }
  { p with flags := aupdate p.flags "help" flag,
           short_to_long := aupdate p.short_to_long "h" "help" }

/-- `Parser::add_version_flag` (cppli.cpp lines 85-97): installs a
`version`/`V` flag whose action prints the version and calls `std::exit(0)`. -/
def add_version_flag (p : SParser) : SParser :=
  let flag : SFlag := { short_name := "V", long_name := "version",
                        action := some [Effect.printVersion, Effect.exitProc 0] }
  { p with flags := aupdate p.flags "version" flag,
           short_to_long := aupdate p.short_to_long "V" "version" }

/-- `Parser::add_positional` (cppli.cpp lines 99-106). -/
def add_positional (p : SParser) (name : String) (required : Bool := true) : SParser :=
  { p with positionals := p.positionals ++ [{ name := name, required := required }] }

/-- `Parser::validate_requirements` (cppli.cpp lines 190-205): first required
flag without a value, then first required positional whose value is the empty
string; on success `parsed_` becomes true. -/
def validate_requirements (p : SParser) : SParser × ParseResult :=
  match p.flags.find? (fun e => e.2.required && !e.2.has_value) with
  | some e => (p, ParseResult.errPR ("Required flag missing: --" ++ e.1))
  | none =>
    match p.positionals.find? (fun q => q.required && q.value == "") with
    | some q => (p, ParseResult.errPR ("Required positional missing: " ++ q.name))
    | none => ({ p with parsed := true }, ParseResult.okPR)

/-- `Parser::parse` (cppli.cpp lines 121-188), walking the remaining token
suffix in place of the C++ index.  The effects run by a triggered flag action
are returned next to the result; the C++ `std::exit(0)` inside the help and
version actions makes the following `return ParseResult::ok()` unreachable in
a real process, which the caller of the model observes through the
`Effect.exitProc` entry. -/
def parse_loop : Nat → SParser → List String → Nat → Bool →
    SParser × List Effect × ParseResult
  | 0, p, _, _, _ => (p, [], ParseResult.errPR "fuel exhausted")
  | fuel + 1, p, rest, posIx, add =>
    match rest with
    | [] =>
      ((p.validate_requirements).1, [], (p.validate_requirements).2)
    | arg :: t =>
    if arg == "--" then
      parse_loop fuel p t posIx true
    else if add || !(strFirstIs arg '-') then
      -- lines 133-139: positional (an empty token also lands here: its
      -- `arg[0]` reads the terminating NUL, which is not a dash)
      match p.positionals[posIx]? with
      | none => (p, [], ParseResult.errPR "Too many positional arguments")
      | some q =>
        let p1 := { p with positionals := p.positionals.set posIx { q with value := arg } }
        parse_loop fuel p1 t (posIx + 1) add
    else
      -- lines 141-160: flag name / inline value
      let fv : String × Option String :=
        if strFirstTwoDash arg then
          splitLongForm arg
        else
          match alookup p.short_to_long (strDrop arg 1) with
          | some ln => (ln, none)
          | none => (strDrop arg 1, none)
      match alookup p.flags fv.1 with
      | none => (p, [], ParseResult.errPR ("Unknown flag: " ++ arg))
      | some f =>
        match f.action with
        | some effs => (p, effs, ParseResult.okPR)
        | none =>
          match fv.2 with
          | some v =>
            let f1 := { f with has_value := true, value := v }
            let p1 := { p with flags := aupdate p.flags fv.1 f1 }
            if !f1.validate then
              (p1, [], ParseResult.errPR
                ("Invalid value for --" ++ fv.1 ++ ": " ++ f1.value))
            else parse_loop fuel p1 t posIx add
          | none =>
            let nextOk : Bool :=
              match t with
              | next :: _ => !(strFirstIs next '-')
              | [] => false
            if nextOk then
              match t with
              | next :: t2 =>
                let f1 := { f with has_value := true, value := next }
                let p1 := { p with flags := aupdate p.flags fv.1 f1 }
                if !f1.validate then
                  (p1, [], ParseResult.errPR
                    ("Invalid value for --" ++ fv.1 ++ ": " ++ f1.value))
                else parse_loop fuel p1 t2 posIx add
              | [] => (p, [], ParseResult.errPR "")
                -- unreachable: nextOk is false on []
            else
              let f1 := { f with has_value := true, value := "true" }
              let p1 := { p with flags := aupdate p.flags fv.1 f1 }
              if !f1.validate then
                (p1, [], ParseResult.errPR
                  ("Invalid value for --" ++ fv.1 ++ ": " ++ f1.value))
              else parse_loop fuel p1 t posIx add

/-- `Parser::parse(const std::vector<std::string>&)`. -/
def parse (p : SParser) (args : List String) : SParser × List Effect × ParseResult :=
  parse_loop (args.length + 1) p args 0 false

/-- `Parser::has` (cppli.cpp lines 207-210). -/
def has (p : SParser) (flag_name : String) : Bool :=
  match alookup p.flags flag_name with
  | some f => f.has_value
  | none => false

/-- `Parser::get_positional(size_t)` (cppli.cpp lines 212-217): the value at
the index, unless it is the empty string. -/
def get_positional_at (p : SParser) (i : Nat) : Option String :=
  match p.positionals[i]? with
  | some q => if !(q.value == "") then some q.value else none
  | none => none

/-- `Parser::get_positional(std::string_view)` (cppli.cpp lines 219-226): the
first positional with the name and a non-empty value. -/
def get_positional_named (p : SParser) (name : String) : Option String :=
  (p.positionals.find? (fun q => q.name == name && !(q.value == ""))).map
    (fun q => q.value)

end SParser

/-! ### Definitions used to state claims -/

/-- Stated from the spec's words, for comparison with the code: the whole
token is a valid integer — an optional minus sign followed by one or more
decimal digits and nothing else (no trailing characters, no surrounding
whitespace). -/
def wholeTokenIsInt (s : String) : Bool :=
  let body := if strFirstIs s '-' then s.data.drop 1 else s.data
  !body.isEmpty && body.all (fun c => c.isDigit)

/-- The digit run that `std::from_chars` consumes from a token: everything
after an optional minus sign up to the first non-digit. -/
def intDigitsOf (s : String) : List Char :=
  (if strFirstIs s '-' then s.data.drop 1 else s.data).takeWhile (fun c => c.isDigit)

/-- The signed value of that digit run. -/
def intValOf (s : String) : Int :=
  if strFirstIs s '-' then -(decDigitsVal (intDigitsOf s) : Int)
  else (decDigitsVal (intDigitsOf s) : Int)

/-- The behaviour of `Subcommand::parse_args` once `after_double_dash` is set:
further literal `--` tokens are consumed as no-ops (the `arg == "--"` test
precedes the state test) and every other token is assigned to the next
positional slot in order, stopping with the unconsumed suffix when no slot
remains. -/
def afterDoubleDashRun : Subcommand → List String → Nat →
    Subcommand × Except Error (List String)
  | sc, [], _ => (sc, .ok [])
  | sc, arg :: t, posIx =>
    if arg == "--" then afterDoubleDashRun sc t posIx
    else
      match sc.core.positionals[posIx]? with
      | none => (sc, .ok (arg :: t))
      | some p =>
        let (p1, res) := p.set_value_from_string arg
        let sc1 := sc.withCore
          { sc.core with positionals := sc.core.positionals.set posIx p1 }
        match res with
        | .error e => (sc1, .error e)
        | .ok _ => afterDoubleDashRun sc1 t (posIx + 1)

/-- Concrete flag for the C8 witness: a choice-restricted string flag holding
a value outside its choice set. -/
def fC8 : TypedFlag :=
  { long_name := "format", ty := CTy.str, value := some (CVal.str "html"),
    choices := [CVal.str "json", CVal.str "xml", CVal.str "yaml"] }

/-- Concrete string-based parser for the C4 counterexample: one flag,
declared required and carrying a default value. -/
def pC4 : SParser :=
  ((SParser.add_flag {} "threads").builder_required "threads" true).builder_default_value
    "threads" "4"

/-- Concrete string-based parser for the C10 witness: a required positional
whose parsed value is the empty string (as parsing the empty token "" does). -/
def pC10 : SParser :=
  { positionals := [{ name := "input", required := true, value := "" }] }

/-- Typed dispatcher for the C3 witness: exactly one declared positional. -/
def pC3 : TParser :=
  { positionals := [{ name := "input", ty := CTy.str }] }

/-- The C3 witness dispatcher mid-parse: its single positional slot already
filled by "file1.txt". -/
def pC3mid : TParser :=
  { positionals := [{ name := "input", ty := CTy.str,
                      value := some (CVal.str "file1.txt") }] }

/-- Schema for the C7 statements: one boolean flag named `flag` and one
string positional. -/
def scC7 : Subcommand :=
  .mk { name := "app",
        flags := [{ long_name := "flag", ty := CTy.bool }],
        positionals := [{ name := "input", ty := CTy.str }] } []

/-- Boolean flag for the C1 example: `verbose`, short name `v`. -/
def vfC1 : TypedFlag := { long_name := "verbose", short_name := "v", ty := CTy.bool }

/-- Positional for the C1 example. -/
def ipC1 : TypedPositional := { name := "input", ty := CTy.str }

/-- Schema for the C1 example: boolean `-v` plus one string positional. -/
def scC1 : Subcommand := .mk { name := "app", flags := [vfC1], positionals := [ipC1] } []

/-- Schema for the C6 witness: an integer flag `port`. -/
def pfC6 : TypedFlag := { long_name := "port", ty := CTy.int }

/-- Subcommand for the C6 witness. -/
def scC6 : Subcommand := .mk { name := "app", flags := [pfC6] } []

/-- Fallthrough subcommand (no flags of its own) for the C5 statements. -/
def subC5 : Subcommand := .mk { name := "c", allow_fallthrough := true } []

/-- Parent *Subcommand* owning `subC5`, with a boolean flag `-x` of its own,
for the C5 counterexample. -/
def parentC5 : Subcommand :=
  .mk { name := "p",
        flags := [{ long_name := "xflag", short_name := "x", ty := CTy.bool }] }
    [("c", subC5)]

/-- Typed top-level dispatcher owning `subC5`, with a boolean flag `-x` of
its own, for the C5 resolution conjunct. -/
def tpC5 : TParser :=
  { flags := [{ long_name := "xflag", short_name := "x", ty := CTy.bool }],
    subcommands := [("c", subC5)] }

/-! ## Theorems -/

theorem fromCharsInt_eq (s : String) :
    fromCharsInt s =
      (if intDigitsOf s = [] then (FCErrc.invalid_argument, 0)
       else if intValOf s < intMin ∨ intMax < intValOf s then (FCErrc.result_out_of_range, 0)
       else (FCErrc.ok, intValOf s)) := by
  simp only [fromCharsInt, intValOf, intDigitsOf, List.isEmpty_iff]

/-- Claim C2 (counterexample): the integer converter is not whole-token
strict — on the token "123abc", whose entirety is not a valid integer, it
succeeds with the value of the digit prefix. -/
theorem int_conversion_accepts_trailing_junk :
    ValueConverter.int_from_string "123abc" = .ok 123 ∧
    wholeTokenIsInt "123abc" = false := by
  constructor
  · decide
  · decide

/-- Claim C2 (amended): `ValueConverter<int>::from_string` parses the longest
digit prefix after an optional minus sign, ignoring trailing characters: with
no digit at all it fails with kind `InvalidFlagValue` and message "Invalid
integer format"; with a digit run whose value exceeds the 32-bit range it
fails with the same kind and the distinct message "Integer out of range";
otherwise it succeeds with the value of the digit run. -/
theorem int_conversion_from_chars (s : String) :
    (intDigitsOf s = [] →
      ValueConverter.int_from_string s =
        .error ⟨ErrorCode.InvalidFlagValue, "Invalid integer format"⟩) ∧
    (intDigitsOf s ≠ [] → intMin ≤ intValOf s → intValOf s ≤ intMax →
      ValueConverter.int_from_string s = .ok (intValOf s)) ∧
    (intDigitsOf s ≠ [] → (intValOf s < intMin ∨ intMax < intValOf s) →
      ValueConverter.int_from_string s =
        .error ⟨ErrorCode.InvalidFlagValue, "Integer out of range"⟩) := by
  refine ⟨?_, ?_, ?_⟩
  · intro h
    rw [ValueConverter.int_from_string, fromCharsInt_eq, if_pos h]
  · intro h h1 h2
    rw [ValueConverter.int_from_string, fromCharsInt_eq, if_neg h, if_neg (by omega)]
  · intro h h1
    rw [ValueConverter.int_from_string, fromCharsInt_eq, if_neg h, if_pos h1]

/-- Witness for `int_conversion_from_chars` at the token "-42". -/
theorem int_conversion_from_chars_witness :
    ValueConverter.int_from_string "-42" = .ok (-42) := by
  have h := (int_conversion_from_chars "-42").2.1 (by decide) (by decide) (by decide)
  simpa using h

/-- Claim C8: `TypedFlag<T>::set_value_from_string` converts first and
propagates a conversion failure untouched with nothing stored; on success it
stores the value and validates, the choice-set membership check coming first
(failing with `ValidationFailed` and reason "value not in allowed choices"
when a non-empty choice set lacks the stored value) and the custom validator
only afterwards, its result propagated verbatim. -/
theorem typed_flag_set_value_pipeline :
    (∀ (f : TypedFlag) (s : String) (e : Error),
        convert f.ty s = .error e →
        f.set_value_from_string s = (f, .error e)) ∧
    (∀ (f : TypedFlag) (s : String) (v : CVal),
        convert f.ty s = .ok v →
        f.set_value_from_string s =
          ({ f with value := some v }, TypedFlag.validate { f with value := some v })) ∧
    (∀ (f : TypedFlag) (v : CVal),
        f.value = some v → f.choices.isEmpty = false → f.choices.contains v = false →
        f.validate =
          .error (Error.validation_failed f.long_name "value not in allowed choices")) ∧
    (∀ (f : TypedFlag) (v : CVal) (g : CVal → Except Error Unit),
        f.value = some v → (f.choices.isEmpty || f.choices.contains v) = true →
        f.validator = some g → f.validate = g v) := by
  refine ⟨?_, ?_, ?_, ?_⟩
  · intro f s e h
    simp only [TypedFlag.set_value_from_string, h]
  · intro f s v h
    simp only [TypedFlag.set_value_from_string, h]
  · intro f v hv hc hnc
    simp only [TypedFlag.validate, hv, hc, hnc]
    rfl
  · intro f v g hv hch hval
    have hcond : (!f.choices.isEmpty && !f.choices.contains v) = false := by
      rcases Bool.or_eq_true_iff.mp hch with h | h <;> rw [h] <;> simp
    simp only [TypedFlag.validate, hv, hcond, hval]
    rfl

/-- Witness for `typed_flag_set_value_pipeline`: the choice-restricted flag
`fC8` holding "html" fails validation with the fixed reason. -/
theorem typed_flag_set_value_pipeline_witness :
    TypedFlag.validate fC8 =
      .error (Error.validation_failed "format" "value not in allowed choices") :=
  typed_flag_set_value_pipeline.2.2.1 fC8 (CVal.str "html") rfl rfl rfl

theorem all_not_iff_find_none {α : Type} (l : List α) (p : α → Bool) :
    l.all (fun x => !p x) = true ↔ l.find? p = none := by
  rw [List.all_eq_true, List.find?_eq_none]
  constructor
  · intro h x hx
    have hh := h x hx
    simp only [Bool.not_eq_true'] at hh
    simp [hh]
  · intro h x hx
    have hh := h x hx
    simp only [Bool.not_eq_true] at hh
    simp [hh]

/-- Claim C4 (counterexample): for the schema `pC4` — a required flag that
carries a default value — parsing the empty token sequence succeeds even
though a declared flag is required, so "succeeds iff no declared flag or
positional is required" fails. -/
theorem empty_parse_required_default_flag :
    ¬ ((((SParser.parse pC4 []).2.2).success = true) ↔
        ((pC4.flags.all (fun e => !e.2.required) &&
          pC4.positionals.all (fun q => !q.required)) = true)) := by
  decide

/-- Claim C4 (amended): parsing the empty token sequence succeeds iff every
required flag already has a value (a configured default counts: it seeds the
value slot) and every required positional has a non-empty stored value. -/
theorem empty_parse_iff (p : SParser) :
    ((SParser.parse p []).2.2).success = true ↔
      ((p.flags.all (fun e => !e.2.required || e.2.has_value)) = true ∧
       (p.positionals.all (fun q => !q.required || !(q.value == ""))) = true) := by
  have h1 : ∀ e : String × SFlag,
      (!e.2.required || e.2.has_value) = !(e.2.required && !e.2.has_value) := by
    intro e; cases e.2.required <;> cases e.2.has_value <;> rfl
  have h2 : ∀ q : SPositional,
      (!q.required || !(q.value == "")) = !(q.required && q.value == "") := by
    intro q; cases hq : q.required <;> cases hv : (q.value == "") <;> simp [hq, hv]
  simp only [SParser.parse, SParser.parse_loop, SParser.validate_requirements]
  simp only [funext h1, funext h2]
  rw [all_not_iff_find_none, all_not_iff_find_none]
  cases hf : p.flags.find? (fun e => e.2.required && !e.2.has_value) with
  | some e => simp [ParseResult.errPR, hf]
  | none =>
    cases hp : p.positionals.find? (fun q => q.required && (q.value == "")) with
    | some q => simp [ParseResult.errPR, hp]
    | none => simp [ParseResult.okPR, hp]

/-- Claim C10: in the string-based `Parser`, a positional whose stored value
is the empty string is indistinguishable from an unset one: `get_positional`
by index or by name yields nothing whenever the stored value is empty, and a
required positional whose stored value is empty still fails requirement
validation — with the `MissingRequiredPositional` message once every required
flag has a value. -/
theorem string_parser_empty_positional_unset :
    (∀ (p : SParser) (i : Nat) (q : SPositional),
        p.positionals[i]? = some q → q.value = "" →
        p.get_positional_at i = none) ∧
    (∀ (p : SParser) (n : String),
        (∀ q ∈ p.positionals, q.name = n → q.value = "") →
        p.get_positional_named n = none) ∧
    (∀ (p : SParser) (q : SPositional),
        q ∈ p.positionals → q.required = true → q.value = "" →
        ((p.validate_requirements).2).success = false) ∧
    (∀ (p : SParser) (q : SPositional),
        (∀ e ∈ p.flags, e.2.required = true → e.2.has_value = true) →
        q ∈ p.positionals → q.required = true → q.value = "" →
        ∃ nm, (p.validate_requirements).2 =
          ParseResult.errPR ("Required positional missing: " ++ nm)) := by
  refine ⟨?_, ?_, ?_, ?_⟩
  · intro p i q hq hv
    simp [SParser.get_positional_at, hq, hv]
  · intro p n h
    rw [SParser.get_positional_named]
    rw [List.find?_eq_none.mpr]
    · rfl
    · intro q hq
      by_cases hn : q.name = n
      · have := h q hq hn
        simp [this]
      · simp [hn]
  · intro p q hmem hreq hval
    rw [SParser.validate_requirements]
    cases hf : p.flags.find? (fun e => e.2.required && !e.2.has_value) with
    | some e => simp [ParseResult.errPR]
    | none =>
      cases hp : p.positionals.find? (fun r => r.required && (r.value == "")) with
      | some r => simp [ParseResult.errPR]
      | none =>
        exfalso
        have := List.find?_eq_none.mp hp q hmem
        simp [hreq, hval] at this
  · intro p q hflags hmem hreq hval
    rw [SParser.validate_requirements]
    rw [show p.flags.find? (fun e => e.2.required && !e.2.has_value) = none from ?_]
    · cases hp : p.positionals.find? (fun r => r.required && (r.value == "")) with
      | some r => exact ⟨r.name, rfl⟩
      | none =>
        exfalso
        have := List.find?_eq_none.mp hp q hmem
        simp [hreq, hval] at this
    · rw [List.find?_eq_none]
      intro e he
      by_cases hr : e.2.required = true
      · simp [hr, hflags e he hr]
      · simp only [Bool.not_eq_true] at hr
        simp [hr]

/-- Witness for `string_parser_empty_positional_unset` on the concrete schema
`pC10`. -/
theorem string_parser_empty_positional_unset_witness :
    pC10.get_positional_at 0 = none ∧
    ((pC10.validate_requirements).2).success = false :=
  ⟨string_parser_empty_positional_unset.1 pC10 0
      { name := "input", required := true, value := "" } rfl rfl,
   string_parser_empty_positional_unset.2.2.1 pC10
      { name := "input", required := true, value := "" } (List.mem_singleton.mpr rfl) rfl rfl⟩

theorem alookup_mem {α : Type} {m : List (String × α)} {k : String} {v : α}
    (h : alookup m k = some v) : ∃ e ∈ m, e.2 = v := by
  unfold alookup at h
  cases hf : m.find? (fun p => p.1 == k) with
  | none => rw [hf] at h; cases h
  | some e =>
    rw [hf] at h
    exact ⟨e, List.mem_of_find?_eq_some hf, by cases h; rfl⟩

theorem mem_aupdate {α : Type} {m : List (String × α)} {k : String} {v : α}
    {x : String × α} (h : x ∈ aupdate m k v) : x = (k, v) ∨ x ∈ m := by
  induction m with
  | nil =>
    simp only [aupdate, List.mem_singleton] at h
    exact Or.inl h
  | cons e r ih =>
    obtain ⟨k2, v2⟩ := e
    simp only [aupdate] at h
    by_cases hk : (k2 == k) = true
    · rw [if_pos hk] at h
      rcases List.mem_cons.mp h with h1 | h1
      · exact Or.inl h1
      · exact Or.inr (List.mem_cons_of_mem _ h1)
    · rw [if_neg hk] at h
      rcases List.mem_cons.mp h with h1 | h1
      · exact Or.inr (List.mem_cons.mpr (Or.inl h1))
      · rcases ih h1 with h2 | h2
        · exact Or.inl h2
        · exact Or.inr (List.mem_cons_of_mem _ h2)

theorem alookup_aupdate_self {α : Type} (m : List (String × α)) (k : String) (v : α) :
    alookup (aupdate m k v) k = some v := by
  induction m with
  | nil => simp [aupdate, alookup, List.find?]
  | cons e r ih =>
    obtain ⟨k2, v2⟩ := e
    simp only [aupdate]
    by_cases hk : (k2 == k) = true
    · rw [if_pos hk]
      simp [alookup, List.find?]
    · rw [if_neg hk]
      simp only [alookup, List.find?, hk]
      exact ih

theorem sparser_no_action_no_effects (fuel : Nat) :
    ∀ (args : List String) (p : SParser) (posIx : Nat) (add : Bool),
      (∀ e ∈ p.flags, e.2.action = none) →
      (SParser.parse_loop fuel p args posIx add).2.1 = [] := by
  induction fuel with
  | zero => intro args p posIx add _; rfl
  | succ fuel ih =>
    intro args p posIx add h
    cases args with
    | nil => rfl
    | cons arg t =>
      simp only [SParser.parse_loop]
      by_cases hdd : (arg == "--") = true
      · rw [if_pos hdd]
        exact ih t p posIx true h
      · rw [if_neg hdd]
        by_cases hpos : (add || !(strFirstIs arg '-')) = true
        · rw [if_pos hpos]
          cases hq : p.positionals[posIx]? with
          | none => rfl
          | some q => exact ih t _ (posIx + 1) add h
        · rw [if_neg hpos]
          cases hl : alookup p.flags
              (if strFirstTwoDash arg then splitLongForm arg
               else
                 match alookup p.short_to_long (strDrop arg 1) with
                 | some ln => (ln, none)
                 | none => (strDrop arg 1, none)).1 with
          | none => simp only [hl]
          | some f =>
            obtain ⟨e, hmem, hef⟩ := alookup_mem hl
            have hact : f.action = none := by rw [← hef]; exact h e hmem
            simp only [hl, hact]
            have hupd : ∀ (v : String),
                (∀ e2 ∈ aupdate p.flags
                    (if strFirstTwoDash arg then splitLongForm arg
                     else
                       match alookup p.short_to_long (strDrop arg 1) with
                       | some ln => (ln, none)
                       | none => (strDrop arg 1, none)).1
                    { short_name := f.short_name, long_name := f.long_name,
                      required := f.required, has_value := true, value := v,
                      default_value := f.default_value, choices := f.choices,
                      validator := f.validator, action := none },
                  e2.2.action = none) := by
              intro v e2 he2
              rcases mem_aupdate he2 with h2 | h2
              · rw [h2]
              · exact h e2 h2
            cases hiv : (if strFirstTwoDash arg then splitLongForm arg
                 else
                   match alookup p.short_to_long (strDrop arg 1) with
                   | some ln => (ln, none)
                   | none => (strDrop arg 1, none)).2 with
            | some v =>
              simp only
              split
              · rfl
              · exact ih t _ posIx add (hupd v)
            | none =>
              simp only
              split
              · split
                · split
                  · rfl
                  · exact ih _ _ posIx add (hupd _)
                · rfl
              · split
                · rfl
                · exact ih t _ posIx add (hupd _)

/-- Claim C9 (counterexample): the standard help flag installed by the
string-based `Parser::add_help_flag` prints and imposes `exit(0)` during
parsing — encountering `--help` runs the library-installed action, whose
effects are printing the help text and exiting the process with code 0. -/
theorem help_flag_action_exits :
    ((SParser.parse (SParser.add_help_flag {}) ["--help"]).2.1 =
      [Effect.printHelp, Effect.exitProc 0]) ∧
    (SParser.parse (SParser.add_help_flag {}) ["--help"]).2.2 = ParseResult.okPR := by
  constructor
  · decide
  · decide

/-- Claim C9 (amended): the string-based parse performs no output and no
process exit of its own — over a schema whose flags carry no installed action
it runs no effect at all — but the library-installed standard help flag is an
action flag: recognising `--help` prints the help text and exits the process
with code 0 (the version flag behaves alike). -/
theorem parse_effects_only_from_actions :
    (∀ (p : SParser) (args : List String),
        (∀ e ∈ p.flags, e.2.action = none) →
        (SParser.parse p args).2.1 = []) ∧
    (∀ p : SParser,
        (SParser.parse (SParser.add_help_flag p) ["--help"]).2.1 =
          [Effect.printHelp, Effect.exitProc 0]) := by
  constructor
  · intro p args h
    exact sparser_no_action_no_effects (args.length + 1) args p 0 false h
  · intro p
    show (SParser.parse_loop (1 + 1) (SParser.add_help_flag p) ["--help"] 0 false).2.1 = _
    have hlk : alookup (SParser.add_help_flag p).flags "help" =
        some { short_name := "h", long_name := "help",
               action := some [Effect.printHelp, Effect.exitProc 0] } := by
      rw [SParser.add_help_flag]
      exact alookup_aupdate_self _ _ _
    simp only [SParser.parse_loop]
    rw [if_neg (by decide)]
    rw [if_neg (by decide)]
    have hsplit : (if strFirstTwoDash "--help" then splitLongForm "--help"
         else
           match alookup (SParser.add_help_flag p).short_to_long (strDrop "--help" 1) with
           | some ln => (ln, none)
           | none => (strDrop "--help" 1, none)) = ("help", none) := by
      rw [if_pos (by decide)]
      decide
    rw [hsplit]
    simp only [hlk]

/-- Witness for `parse_effects_only_from_actions`: an action-free schema with
one ordinary flag parses `--port 80` with no effect run. -/
theorem parse_effects_only_from_actions_witness :
    (SParser.parse (SParser.add_flag {} "port") ["--port", "80"]).2.1 = [] :=
  parse_effects_only_from_actions.1 (SParser.add_flag {} "port") ["--port", "80"]
    (by decide)

/-- Claim C3: whenever the typed dispatcher's loop classifies a token as a
positional (after `--`, or a bare non-subcommand token) and every declared
positional slot is already filled, the parse fails with
`TooManyPositionals`.  The top-level dispatcher is modelled from the spec
(its source is not under src/; `Subcommand` instead hands the token back to
its parent at this point). -/
theorem too_many_positionals (fuel : Nat) (p : TParser) (arg : String)
    (t : List String) (posIx : Nat) (add : Bool)
    (hdd : (arg == "--") = false)
    (hclass : add = true ∨ arg = "" ∨
      (strFirstIs arg '-' = false ∧ (lookupSub p.subcommands arg).isNone = true))
    (hfull : p.positionals.length ≤ posIx) :
    TParser.parse_loop (fuel + 1) p (arg :: t) posIx add =
      (p, .error Error.too_many_positionals) := by
  have hsub : (if !add && arg != "" && !(strFirstIs arg '-') then
                 lookupSub p.subcommands arg
               else none) = none := by
    split
    · rcases hclass with h | h | h
      · simp [h] at *
      · simp [h] at *
      · exact Option.isNone_iff_eq_none.mp h.2
    · rfl
  have hpos : (add || arg == "" || !(strFirstIs arg '-')) = true := by
    rcases hclass with h | h | h
    · simp [h]
    · simp [h]
    · simp [h.1]
  have hnone : p.positionals[posIx]? = none := by
    exact List.getElem?_eq_none hfull
  simp only [TParser.parse_loop]
  rw [if_neg (by simp [hdd])]
  rw [hsub]
  rw [if_pos hpos]
  rw [hnone]

/-- Witness for `too_many_positionals`: parsing a second bare token with the
single slot already filled errors, and the whole parse of
`["file1.txt","file2.txt"]` against one declared positional fails with kind
`TooManyPositionals`. -/
theorem too_many_positionals_witness :
    TParser.parse_loop 2 pC3mid ["file2.txt"] 1 false =
      (pC3mid, .error Error.too_many_positionals) ∧
    (TParser.parse pC3 ["file1.txt", "file2.txt"]).2 =
      .error Error.too_many_positionals := by
  constructor
  · exact too_many_positionals 1 pC3mid "file2.txt" [] 1 false (by decide)
      (Or.inr (Or.inr ⟨by decide, by decide⟩)) (by decide)
  · decide

theorem parse_args_from_double_dash (fuel : Nat) (sc : Subcommand)
    (rest : List String) (posIx : Nat) :
    Subcommand.parse_args_from (fuel + 1) sc ("--" :: rest) posIx false =
      Subcommand.parse_args_from fuel sc rest posIx true := by
  simp only [Subcommand.parse_args_from]
  rw [if_pos (by decide)]

theorem parse_args_from_add_state (rest : List String) :
    ∀ (fuel : Nat) (sc : Subcommand) (posIx : Nat), rest.length < fuel →
      Subcommand.parse_args_from fuel sc rest posIx true =
        afterDoubleDashRun sc rest posIx := by
  induction rest with
  | nil =>
    intro fuel sc posIx h
    cases fuel with
    | zero => omega
    | succ f => rfl
  | cons arg t ih =>
    intro fuel sc posIx h
    cases fuel with
    | zero => omega
    | succ f =>
      have hf : t.length < f := by simp at h; omega
      simp only [Subcommand.parse_args_from, afterDoubleDashRun]
      by_cases hdd : (arg == "--") = true
      · rw [if_pos hdd, if_pos hdd]
        exact ih f sc posIx hf
      · rw [if_neg hdd, if_neg hdd]
        rw [show (if !true && arg != "" && !(strFirstIs arg '-') then
              lookupSub sc.subcommands arg else none) = none by simp]
        rw [show (true || arg == "" || !(strFirstIs arg '-')) = true by simp]
        simp only
        cases hq : sc.core.positionals[posIx]? with
        | none => rfl
        | some p =>
          simp only
          cases hres : p.set_value_from_string arg with
          | mk p1 res =>
            cases res with
            | error e => rfl
            | ok u => exact ih f _ (posIx + 1) hf

/-- Claim C7 (counterexample): after a first `--`, a second literal `--` is
not treated as a positional — it is consumed as a no-op, leaving the declared
positional slot empty — because the `arg == "--"` test precedes the
after-double-dash state test. -/
theorem double_dash_token_skipped_after_double_dash :
    (scC7.parse_args ["--", "--"] 0 false).1.get_positional 0 = none ∧
    (scC7.parse_args ["--", "--"] 0 false).2 = .ok [] := by
  constructor
  · decide
  · decide

/-- Claim C7 (amended): encountering `--` switches permanently into the
after-double-dash state, in which every subsequent token other than further
literal `--` tokens (which are consumed as no-ops) is assigned to the next
positional slot and no flag parsing happens; the state is never reset.  In
particular `["--","--flag"]` against a boolean flag `flag` and one positional
leaves the flag unset and stores the literal text `--flag` in the
positional. -/
theorem double_dash_permanent :
    (∀ (sc : Subcommand) (rest : List String) (posIx : Nat),
        sc.parse_args ("--" :: rest) posIx false = sc.parse_args rest posIx true) ∧
    (∀ (sc : Subcommand) (rest : List String) (posIx : Nat),
        sc.parse_args rest posIx true = afterDoubleDashRun sc rest posIx) ∧
    ((scC7.parse_args ["--", "--flag"] 0 false).1.has "flag" = false ∧
     (scC7.parse_args ["--", "--flag"] 0 false).1.get_positional 0 =
       some (CVal.str "--flag")) := by
  refine ⟨?_, ?_, ?_, ?_⟩
  · intro sc rest posIx
    show Subcommand.parse_args_from (("--" :: rest).length + 1) sc ("--" :: rest) posIx false = _
    rw [List.length_cons]
    exact parse_args_from_double_dash (rest.length + 1) sc rest posIx
  · intro sc rest posIx
    exact parse_args_from_add_state rest (rest.length + 1) sc posIx (Nat.lt_succ_self _)
  · decide
  · decide

theorem markHelp_core_flags (sc : Subcommand) (n : String) :
    (markHelp sc n).core.flags = sc.core.flags := by
  unfold markHelp
  split
  · cases sc; rfl
  · rfl

theorem beq_dd_false_of_first_two {arg : String} (h : strFirstTwoDash arg = false) :
    (arg == "--") = false := by
  cases hdd : (arg == "--") with
  | true =>
    have : arg = "--" := eq_of_beq hdd
    rw [this] at h
    exact absurd h (by decide)
  | false => rfl

theorem beq_empty_false_of_first {arg : String} (h : strFirstIs arg '-' = true) :
    (arg == "") = false := by
  cases he : (arg == "") with
  | true =>
    have : arg = "" := eq_of_beq he
    rw [this] at h
    exact absurd h (by decide)
  | false => rfl

theorem bool_flag_skips_nonliteral_step (fuel : Nat) (sc : Subcommand) (arg ln : String) (f : TypedFlag)
    (nb : String) (t : List String) (posIx : Nat)
    (hdash : strFirstIs arg '-' = true)
    (h2dash : strFirstTwoDash arg = false)
    (hshort : shortToLong sc.core.flags (strDrop arg 1) = some ln)
    (hlk : lookupFlag sc.core.flags ln = some f)
    (hbool : f.ty = CTy.bool)
    (hnb1 : strFirstIs nb '-' = false)
    (hnb2 : boolLits.contains nb = false)
    (hval : TypedFlag.validate { f with value := some (CVal.bool true) } = .ok ()) :
    Subcommand.parse_args_from (fuel + 1) sc (arg :: nb :: t) posIx false =
      Subcommand.parse_args_from fuel
        ((markHelp sc ln).withCore
          { (markHelp sc ln).core with
              flags := updateFlag (markHelp sc ln).core.flags ln
                { f with value := some (CVal.bool true) } })
        (nb :: t) posIx false := by
  simp only [Subcommand.parse_args_from]
  rw [if_neg (by rw [beq_dd_false_of_first_two h2dash]; exact Bool.false_ne_true)]
  rw [show (if !false && arg != "" && !(strFirstIs arg '-') then
        lookupSub sc.subcommands arg else none) = none by simp [hdash]]
  rw [show (false || arg == "" || !(strFirstIs arg '-')) = false by
    simp [hdash, beq_empty_false_of_first hdash]]
  simp only [Bool.false_eq_true, if_false]
  rw [if_neg (by rw [h2dash]; exact Bool.false_ne_true)]
  rw [hshort]
  simp only [markHelp_core_flags, hlk]
  rw [show (f.ty == CTy.bool) = true by simp [hbool]]
  simp only [hnb1, hnb2, Bool.not_false, Bool.not_true, Bool.false_or, Bool.and_false,
    Bool.false_eq_true, if_false, if_true]
  rw [show f.set_value_from_string "true" =
      ({ f with value := some (CVal.bool true) }, .ok ()) by
    unfold TypedFlag.set_value_from_string
    rw [show convert f.ty "true" = Except.ok (CVal.bool true) by rw [hbool]; decide]
    simp only [hval]]



theorem beq_dd_false_of_not_dash {nb : String} (h : strFirstIs nb '-' = false) :
    (nb == "--") = false := by
  cases hdd : (nb == "--") with
  | true =>
    have : nb = "--" := eq_of_beq hdd
    rw [this] at h
    exact absurd h (by decide)
  | false => rfl

theorem bare_token_positional_step (fuel : Nat) (sc : Subcommand) (nb : String) (t : List String)
    (posIx : Nat) (q q1 : TypedPositional)
    (hnb1 : strFirstIs nb '-' = false)
    (hsub : (lookupSub sc.subcommands nb).isNone = true)
    (hq : sc.core.positionals[posIx]? = some q)
    (hqset : q.set_value_from_string nb = (q1, .ok ())) :
    Subcommand.parse_args_from (fuel + 1) sc (nb :: t) posIx false =
      Subcommand.parse_args_from fuel
        (sc.withCore { sc.core with positionals := sc.core.positionals.set posIx q1 })
        t (posIx + 1) false := by
  simp only [Subcommand.parse_args_from]
  rw [if_neg (by rw [beq_dd_false_of_not_dash hnb1]; exact Bool.false_ne_true)]
  rw [show (if !false && nb != "" && !(strFirstIs nb '-') then
        lookupSub sc.subcommands nb else none) = none by
    split
    · exact Option.isNone_iff_eq_none.mp hsub
    · rfl]
  rw [show (false || nb == "" || !(strFirstIs nb '-')) = true by simp [hnb1]]
  simp only [if_true, hq, hqset]

theorem nonbool_flag_consumes_step (fuel : Nat) (sc : Subcommand) (arg ln : String) (f f1 : TypedFlag)
    (nb : String) (t : List String) (posIx : Nat)
    (hdash : strFirstIs arg '-' = true)
    (h2dash : strFirstTwoDash arg = false)
    (hshort : shortToLong sc.core.flags (strDrop arg 1) = some ln)
    (hlk : lookupFlag sc.core.flags ln = some f)
    (hnotbool : (f.ty == CTy.bool) = false)
    (hnb1 : strFirstIs nb '-' = false)
    (hfset : f.set_value_from_string nb = (f1, .ok ())) :
    Subcommand.parse_args_from (fuel + 1) sc (arg :: nb :: t) posIx false =
      Subcommand.parse_args_from fuel
        ((markHelp sc ln).withCore
          { (markHelp sc ln).core with
              flags := updateFlag (markHelp sc ln).core.flags ln f1 })
        t posIx false := by
  simp only [Subcommand.parse_args_from]
  rw [if_neg (by rw [beq_dd_false_of_first_two h2dash]; exact Bool.false_ne_true)]
  rw [show (if !false && arg != "" && !(strFirstIs arg '-') then
        lookupSub sc.subcommands arg else none) = none by simp [hdash]]
  rw [show (false || arg == "" || !(strFirstIs arg '-')) = false by
    simp [hdash, beq_empty_false_of_first hdash]]
  simp only [Bool.false_eq_true, if_false]
  rw [if_neg (by rw [h2dash]; exact Bool.false_ne_true)]
  rw [hshort]
  simp only [markHelp_core_flags, hlk]
  rw [hnotbool]
  simp only [hnb1, Bool.not_false, Bool.true_and, Bool.true_or, if_true]
  rw [hfset]

/-- Claim C1: a boolean flag followed by a bare token that is not one of the
8 boolean literals does not consume that token: the flag is set to the
literal "true" and the parse continues at the following token unconsumed
(first conjunct); a bare non-subcommand token is then assigned to the next
positional slot (second conjunct); a non-boolean flag in the same position
consumes the following non-dash token unconditionally as its value (third
conjunct).  In particular `["-v","file.txt"]` against boolean `verbose`/`v`
and one positional sets the flag to true and the positional to
"file.txt" (fourth conjunct). -/
theorem boolean_flag_lookahead :
    (∀ (fuel : Nat) (sc : Subcommand) (arg ln : String) (f : TypedFlag)
        (nb : String) (t : List String) (posIx : Nat),
      strFirstIs arg '-' = true →
      strFirstTwoDash arg = false →
      shortToLong sc.core.flags (strDrop arg 1) = some ln →
      lookupFlag sc.core.flags ln = some f →
      f.ty = CTy.bool →
      strFirstIs nb '-' = false →
      boolLits.contains nb = false →
      TypedFlag.validate { f with value := some (CVal.bool true) } = .ok () →
      Subcommand.parse_args_from (fuel + 1) sc (arg :: nb :: t) posIx false =
        Subcommand.parse_args_from fuel
          ((markHelp sc ln).withCore
            { (markHelp sc ln).core with
                flags := updateFlag (markHelp sc ln).core.flags ln
                  { f with value := some (CVal.bool true) } })
          (nb :: t) posIx false) ∧
    (∀ (fuel : Nat) (sc : Subcommand) (nb : String) (t : List String)
        (posIx : Nat) (q q1 : TypedPositional),
      strFirstIs nb '-' = false →
      (lookupSub sc.subcommands nb).isNone = true →
      sc.core.positionals[posIx]? = some q →
      q.set_value_from_string nb = (q1, .ok ()) →
      Subcommand.parse_args_from (fuel + 1) sc (nb :: t) posIx false =
        Subcommand.parse_args_from fuel
          (sc.withCore { sc.core with
              positionals := sc.core.positionals.set posIx q1 })
          t (posIx + 1) false) ∧
    (∀ (fuel : Nat) (sc : Subcommand) (arg ln : String) (f f1 : TypedFlag)
        (nb : String) (t : List String) (posIx : Nat),
      strFirstIs arg '-' = true →
      strFirstTwoDash arg = false →
      shortToLong sc.core.flags (strDrop arg 1) = some ln →
      lookupFlag sc.core.flags ln = some f →
      (f.ty == CTy.bool) = false →
      strFirstIs nb '-' = false →
      f.set_value_from_string nb = (f1, .ok ()) →
      Subcommand.parse_args_from (fuel + 1) sc (arg :: nb :: t) posIx false =
        Subcommand.parse_args_from fuel
          ((markHelp sc ln).withCore
            { (markHelp sc ln).core with
                flags := updateFlag (markHelp sc ln).core.flags ln f1 })
          t posIx false) ∧
    ((scC1.parse_args ["-v", "file.txt"] 0 false).1.has "verbose" = true ∧
     (scC1.parse_args ["-v", "file.txt"] 0 false).1.getFlag "verbose" =
       some (CVal.bool true) ∧
     (scC1.parse_args ["-v", "file.txt"] 0 false).1.get_positional 0 =
       some (CVal.str "file.txt")) := by
  refine ⟨bool_flag_skips_nonliteral_step, bare_token_positional_step, nonbool_flag_consumes_step, by decide, by decide, by decide⟩

/-- Witness for `boolean_flag_lookahead`: its first conjunct applied to the
concrete schema `scC1` and the tokens `["-v","file.txt"]`. -/
theorem boolean_flag_lookahead_witness :
    Subcommand.parse_args_from 2 scC1 ["-v", "file.txt"] 0 false =
      Subcommand.parse_args_from 1
        ((markHelp scC1 "verbose").withCore
          { (markHelp scC1 "verbose").core with
              flags := updateFlag (markHelp scC1 "verbose").core.flags "verbose"
                { vfC1 with value := some (CVal.bool true) } })
        ["file.txt"] 0 false :=
  boolean_flag_lookahead.1 1 scC1 "-v" "verbose" vfC1 "file.txt" [] 0
    rfl rfl rfl rfl rfl rfl rfl rfl

theorem withCore_core (sc : Subcommand) (c : SubCore) : (sc.withCore c).core = c := by
  cases sc; rfl

theorem withCore_subcommands (sc : Subcommand) (c : SubCore) :
    (sc.withCore c).subcommands = sc.subcommands := by
  cases sc; rfl

/-- Claim C6: the first failure aborts the parse pass immediately and is
returned verbatim.  First conjunct: when a `--name=value` token's
`set_value` fails, the parse returns exactly that error, and the resulting
state — only the failing flag's own descriptor updated — does not depend on
the tokens after the failing one.  Second conjunct: an error from a child
subcommand's parse is propagated to the caller unchanged, with no token
after the subcommand name processed by the parent. -/
theorem first_error_aborts :
    (∀ (fuel : Nat) (sc : Subcommand) (arg n v : String) (f f1 : TypedFlag)
        (e : Error) (t : List String) (posIx : Nat),
      (arg == "--") = false →
      strFirstIs arg '-' = true →
      strFirstTwoDash arg = true →
      splitLongForm arg = (n, some v) →
      lookupFlag sc.core.flags n = some f →
      f.set_value_from_string v = (f1, .error e) →
      Subcommand.parse_args_from (fuel + 1) sc (arg :: t) posIx false =
        ((markHelp sc n).withCore
          { (markHelp sc n).core with
              flags := updateFlag (markHelp sc n).core.flags n f1 }, .error e)) ∧
    (∀ (fuel : Nat) (sc child child1 : Subcommand) (name : String) (e : Error)
        (t : List String) (posIx : Nat),
      strFirstIs name '-' = false →
      (name != "") = true →
      lookupSub sc.subcommands name = some child →
      Subcommand.parse_args_from fuel child t 0 false = (child1, .error e) →
      Subcommand.parse_args_from (fuel + 1) sc (name :: t) posIx false =
        (Subcommand.mk { sc.core with selected_subcommand := some name }
          (updateSub sc.subcommands name child1), .error e)) := by
  constructor
  · intro fuel sc arg n v f f1 e t posIx hdd hdash h2dash hsplit hlk hset
    simp only [Subcommand.parse_args_from]
    rw [if_neg (by rw [hdd]; exact Bool.false_ne_true)]
    rw [show (if !false && arg != "" && !(strFirstIs arg '-') then
          lookupSub sc.subcommands arg else none) = none by simp [hdash]]
    rw [show (false || arg == "" || !(strFirstIs arg '-')) = false by
      simp [hdash, beq_empty_false_of_first hdash]]
    simp only [Bool.false_eq_true, if_false]
    rw [if_pos h2dash, hsplit]
    simp only [markHelp_core_flags, hlk, hset]
  · intro fuel sc child child1 name e t posIx hname hne hsub hchild
    simp only [Subcommand.parse_args_from]
    rw [if_neg (by rw [beq_dd_false_of_not_dash hname]; exact Bool.false_ne_true)]
    rw [show (if !false && name != "" && !(strFirstIs name '-') then
          lookupSub sc.subcommands name else none) = lookupSub sc.subcommands name by
      simp [hname, hne]]
    rw [hsub]
    simp only [hchild, withCore_core, withCore_subcommands]

/-- Witness for `first_error_aborts`: parsing `["--port=abc"]` against an
integer flag returns the converter's "Invalid integer format" error
verbatim. -/
theorem first_error_aborts_witness :
    Subcommand.parse_args_from 2 scC6 ["--port=abc"] 0 false =
      ((markHelp scC6 "port").withCore
        { (markHelp scC6 "port").core with
            flags := updateFlag (markHelp scC6 "port").core.flags "port" pfC6 },
       .error ⟨ErrorCode.InvalidFlagValue, "Invalid integer format"⟩) :=
  first_error_aborts.1 1 scC6 "--port=abc" "port" "abc" pfC6 pfC6
    ⟨ErrorCode.InvalidFlagValue, "Invalid integer format"⟩ [] 0
    rfl rfl rfl rfl rfl rfl

/-- Claim C5 (counterexample): when the fallthrough subcommand's parent is
itself a `Subcommand`, the parent does not attempt to resolve the
unrecognised token against its own flag schema: parsing `["c","-x"]` — where
child `c` is fallthrough and the parent declares `-x` — ends with the
parent's flag still unset and the token handed further up unconsumed. -/
theorem fallthrough_parent_subcommand_does_not_resolve :
    (parentC5.parse_args ["c", "-x"] 0 false).2 = .ok ["-x"] ∧
    (parentC5.parse_args ["c", "-x"] 0 false).1.has "xflag" = false := by
  constructor
  · decide
  · decide

/-- Claim C5 (amended): a fallthrough subcommand, on a flag token it does not
recognise, returns control together with the position of that token to its
caller instead of an `UnknownFlag` error (first conjunct: unknown short name;
second: unknown long name).  The resolution of that token "against its own
schema" is performed by the top-level dispatcher — modelled from the spec, as
its source is not under src/ — which resumes classification at the returned
position after a child subcommand comes back (third conjunct), so the token
is matched against the top-level flags; an intermediate `Subcommand` parent
merely propagates the position upward (see the counterexample).  The fourth
conjunct runs the spec's scenario end to end at the top level. -/
theorem fallthrough_returns_index_to_parent :
    (∀ (fuel : Nat) (sc : Subcommand) (arg : String) (t : List String) (posIx : Nat),
      sc.core.allow_fallthrough = true →
      strFirstIs arg '-' = true →
      strFirstTwoDash arg = false →
      shortToLong sc.core.flags (strDrop arg 1) = none →
      Subcommand.parse_args_from (fuel + 1) sc (arg :: t) posIx false =
        (sc, .ok (arg :: t))) ∧
    (∀ (fuel : Nat) (sc : Subcommand) (arg n : String) (vv : Option String)
        (t : List String) (posIx : Nat),
      sc.core.allow_fallthrough = true →
      (arg == "--") = false →
      strFirstIs arg '-' = true →
      strFirstTwoDash arg = true →
      splitLongForm arg = (n, vv) →
      lookupFlag sc.core.flags n = none →
      Subcommand.parse_args_from (fuel + 1) sc (arg :: t) posIx false =
        (markHelp sc n, .ok (arg :: t))) ∧
    (∀ (fuel : Nat) (p : TParser) (name : String) (child child1 : Subcommand)
        (rem t : List String) (posIx : Nat),
      strFirstIs name '-' = false →
      (name != "") = true →
      lookupSub p.subcommands name = some child →
      Subcommand.parse_args_from fuel child t 0 false = (child1, .ok rem) →
      child1.core.help_requested = false →
      (child1.withCore { child1.core with parsed := true }).validate_requirements =
        .ok () →
      TParser.parse_loop (fuel + 1) p (name :: t) posIx false =
        TParser.parse_loop fuel
          { p with selected_subcommand := some name,
                   subcommands := updateSub p.subcommands name
                     (child1.withCore { child1.core with parsed := true }) }
          rem posIx false) ∧
    ((TParser.parse tpC5 ["c", "-x"]).1.has "xflag" = true ∧
     (TParser.parse tpC5 ["c", "-x"]).2 = .ok ()) := by
  refine ⟨?_, ?_, ?_, by decide, by decide⟩
  · intro fuel sc arg t posIx hft hdash h2dash hshort
    simp only [Subcommand.parse_args_from]
    rw [if_neg (by rw [beq_dd_false_of_first_two h2dash]; exact Bool.false_ne_true)]
    rw [show (if !false && arg != "" && !(strFirstIs arg '-') then
          lookupSub sc.subcommands arg else none) = none by simp [hdash]]
    rw [show (false || arg == "" || !(strFirstIs arg '-')) = false by
      simp [hdash, beq_empty_false_of_first hdash]]
    simp only [Bool.false_eq_true, if_false]
    rw [if_neg (by rw [h2dash]; exact Bool.false_ne_true)]
    rw [hshort]
    simp only [hft, if_true]
  · intro fuel sc arg n vv t posIx hft hdd hdash h2dash hsplit hlk
    simp only [Subcommand.parse_args_from]
    rw [if_neg (by rw [hdd]; exact Bool.false_ne_true)]
    rw [show (if !false && arg != "" && !(strFirstIs arg '-') then
          lookupSub sc.subcommands arg else none) = none by simp [hdash]]
    rw [show (false || arg == "" || !(strFirstIs arg '-')) = false by
      simp [hdash, beq_empty_false_of_first hdash]]
    simp only [Bool.false_eq_true, if_false]
    rw [if_pos h2dash, hsplit]
    simp only [markHelp_core_flags, hlk]
    have hft2 : (markHelp sc n).core.allow_fallthrough = true := by
      unfold markHelp
      split
      · cases sc; exact hft
      · exact hft
    simp only [hft2, if_true]
  · intro fuel p name child child1 rem t posIx hname hne hsub hchild hch hcv
    simp only [TParser.parse_loop]
    rw [if_neg (by rw [beq_dd_false_of_not_dash hname]; exact Bool.false_ne_true)]
    rw [show (if !false && name != "" && !(strFirstIs name '-') then
          lookupSub p.subcommands name else none) = some child by
      simp [hname, hne, hsub]]
    dsimp only
    rw [hchild]
    simp only [withCore_core, hch, Bool.or_false, Bool.false_eq_true, if_false]
    simp only [hch] at hcv
    rw [hcv]

/-- Witness for `fallthrough_returns_index_to_parent`: its first conjunct at
the concrete fallthrough subcommand `subC5` and the token `-x`. -/
theorem fallthrough_returns_index_to_parent_witness :
    Subcommand.parse_args_from 2 subC5 ["-x"] 0 false = (subC5, .ok ["-x"]) :=
  fallthrough_returns_index_to_parent.1 1 subC5 "-x" [] 0 rfl rfl rfl rfl

set_option maxHeartbeats 1000000 in
theorem parse_args_from_fuel_irrelevant :
    ∀ (n : Nat) (rest : List String), rest.length ≤ n →
      ∀ (f1 f2 : Nat) (sc : Subcommand) (posIx : Nat) (add : Bool),
        rest.length < f1 → rest.length < f2 →
        Subcommand.parse_args_from f1 sc rest posIx add =
          Subcommand.parse_args_from f2 sc rest posIx add := by
  intro n
  induction n with
  | zero =>
    intro rest hlen f1 f2 sc posIx add h1 h2
    have : rest = [] := List.length_eq_zero.mp (Nat.le_zero.mp hlen)
    subst this
    cases f1 with
    | zero => omega
    | succ g1 =>
      cases f2 with
      | zero => omega
      | succ g2 => rfl
  | succ n ih =>
    intro rest hlen f1 f2 sc posIx add h1 h2
    cases rest with
    | nil =>
      cases f1 with
      | zero => omega
      | succ g1 =>
        cases f2 with
        | zero => omega
        | succ g2 => rfl
    | cons arg t =>
      cases f1 with
      | zero => omega
      | succ g1 =>
        cases f2 with
        | zero => omega
        | succ g2 =>
          have hlt : t.length ≤ n := by simp at hlen; omega
          have hg1 : t.length < g1 := by simp at h1; omega
          have hg2 : t.length < g2 := by simp at h2; omega
          simp only [Subcommand.parse_args_from]
          by_cases hdd : (arg == "--") = true
          · rw [if_pos hdd]; try rw [if_pos hdd]; try dsimp only
            exact ih t hlt g1 g2 sc posIx true hg1 hg2
          · rw [if_neg hdd]; try rw [if_neg hdd]; try dsimp only
            cases hsub : (if !add && arg != "" && !(strFirstIs arg '-') then
                lookupSub sc.subcommands arg else none) with
            | some child =>
              dsimp only
              rw [ih t hlt g1 g2 child 0 false hg1 hg2]
            | none =>
              dsimp only
              by_cases hpos : (add || arg == "" || !(strFirstIs arg '-')) = true
              · rw [if_pos hpos]; try rw [if_pos hpos]; try dsimp only
                cases hq : sc.core.positionals[posIx]? with
                | none => rfl
                | some q =>
                  dsimp only
                  cases hres : q.set_value_from_string arg with
                  | mk q1 res =>
                    cases res with
                    | error e => rfl
                    | ok u => exact ih t hlt g1 g2 _ (posIx + 1) add hg1 hg2
              · rw [if_neg hpos]; try rw [if_neg hpos]; try dsimp only
                by_cases h2d : strFirstTwoDash arg = true
                · try rw [if_pos h2d]
                  cases hsp : splitLongForm arg with
                  | mk nm iv =>
                    dsimp only
                    cases hlk : lookupFlag (markHelp sc nm).core.flags nm with
                    | none => rfl
                    | some f =>
                      dsimp only
                      cases iv with
                      | some v =>
                        dsimp only
                        cases hset : f.set_value_from_string v with
                        | mk f1 res =>
                          cases res with
                          | error e => rfl
                          | ok u => exact ih t hlt g1 g2 _ posIx add hg1 hg2
                      | none =>
                        dsimp only
                        cases t with
                        | nil =>
                          by_cases hb : (f.ty == CTy.bool) = true
                          · rw [if_pos hb]; try rw [if_pos hb]; try dsimp only
                            cases hset : f.set_value_from_string "true" with
                            | mk f1 res =>
                              cases res with
                              | error e => rfl
                              | ok u =>
                                exact ih [] (Nat.zero_le n) g1 g2 _ posIx add hg1 hg2
                          · rw [if_neg hb]; try rw [if_neg hb]; try dsimp only
                        | cons next t2 =>
                          have hlt2 : t2.length ≤ n := by simp at hlt; omega
                          have hg12 : t2.length < g1 := by simp at hg1; omega
                          have hg22 : t2.length < g2 := by simp at hg2; omega
                          by_cases hok : (!(strFirstIs next '-') &&
                              (!(f.ty == CTy.bool) || boolLits.contains next)) = true
                          · rw [if_pos hok]; try rw [if_pos hok]; try dsimp only
                            cases hset : f.set_value_from_string next with
                            | mk f1 res =>
                              cases res with
                              | error e => rfl
                              | ok u => exact ih t2 hlt2 g1 g2 _ posIx add hg12 hg22
                          · rw [if_neg hok]; try rw [if_neg hok]; try dsimp only
                            by_cases hb : (f.ty == CTy.bool) = true
                            · rw [if_pos hb]; try rw [if_pos hb]; try dsimp only
                              cases hset : f.set_value_from_string "true" with
                              | mk f1 res =>
                                cases res with
                                | error e => rfl
                                | ok u =>
                                  exact ih (next :: t2) hlt g1 g2 _ posIx add hg1 hg2
                            · rw [if_neg hb]; try rw [if_neg hb]; try dsimp only
                · try rw [if_neg h2d]
                  cases hsl : shortToLong sc.core.flags (strDrop arg 1) with
                  | none => rfl
                  | some ln =>
                    dsimp only
                    cases hlk : lookupFlag (markHelp sc ln).core.flags ln with
                    | none => rfl
                    | some f =>
                      dsimp only
                      cases t with
                      | nil =>
                        by_cases hb : (f.ty == CTy.bool) = true
                        · rw [if_pos hb]; try rw [if_pos hb]; try dsimp only
                          cases hset : f.set_value_from_string "true" with
                          | mk f1 res =>
                            cases res with
                            | error e => rfl
                            | ok u =>
                              exact ih [] (Nat.zero_le n) g1 g2 _ posIx add hg1 hg2
                        · rw [if_neg hb]; try rw [if_neg hb]; try dsimp only
                      | cons next t2 =>
                        have hlt2 : t2.length ≤ n := by simp at hlt; omega
                        have hg12 : t2.length < g1 := by simp at hg1; omega
                        have hg22 : t2.length < g2 := by simp at hg2; omega
                        by_cases hok : (!(strFirstIs next '-') &&
                            (!(f.ty == CTy.bool) || boolLits.contains next)) = true
                        · rw [if_pos hok]; try rw [if_pos hok]; try dsimp only
                          cases hset : f.set_value_from_string next with
                          | mk f1 res =>
                            cases res with
                            | error e => rfl
                            | ok u => exact ih t2 hlt2 g1 g2 _ posIx add hg12 hg22
                        · rw [if_neg hok]; try rw [if_neg hok]; try dsimp only
                          by_cases hb : (f.ty == CTy.bool) = true
                          · rw [if_pos hb]; try rw [if_pos hb]; try dsimp only
                            cases hset : f.set_value_from_string "true" with
                            | mk f1 res =>
                              cases res with
                              | error e => rfl
                              | ok u =>
                                exact ih (next :: t2) hlt g1 g2 _ posIx add hg1 hg2
                          · rw [if_neg hb]; try rw [if_neg hb]; try dsimp only



/-- The entry point agrees with `parse_args_from` at every sufficient fuel,
so the step equations stated on `parse_args_from` transfer to
`Subcommand.parse_args`. -/
theorem parse_args_eq_from (sc : Subcommand) (rest : List String) (posIx : Nat)
    (add : Bool) (fuel : Nat) (h : rest.length < fuel) :
    Subcommand.parse_args sc rest posIx add =
      Subcommand.parse_args_from fuel sc rest posIx add :=
  parse_args_from_fuel_irrelevant rest.length rest (Nat.le_refl _)
    (rest.length + 1) fuel sc posIx add (Nat.lt_succ_self _) h

end Cppli
